import Mathlib

set_option linter.unusedVariables false

/-!
Shallow embedding of the node_redis client core (src/index.js,
src/lib/individualCommands.js, src/lib/utils.js) for verification of the
claims about the pub/sub state machine, the reconnection controller, the
CLIENT REPLY modes, argument normalization, quit handling and the hgetall
reply conversion.

Modelling conventions:
- JS numbers appearing as counters/durations are Int (or Nat where the
  source guarantees non-negativity, e.g. pub_sub_mode).
- Buffers are modelled as strings of code points / byte lists; the
  string-vs-buffer distinction of channels only changes the runtime
  representation, not the control flow verified here.
- Fallible code paths (JS would throw, e.g. shifting an empty queue and
  dereferencing the result) return Option.
- Emitted events and fired callbacks are collected in explicit event lists.
-/

inductive ReplyMode where
  | ON
  | OFF
  | SKIP
  | SKIP_ONE_MORE
  deriving DecidableEq

/-- The call_on_write hooks installed by lib/individualCommands.js.
subscribeHook: `self.pub_sub_mode = self.pub_sub_mode || self.command_queue.length + 1`;
replyHook: `self.reply = reply_on_off` (CLIENT REPLY ON|OFF|SKIP);
monitorHook: `self.monitoring = true`. -/
inductive WriteHook where
  | noHook
  | subscribeHook
  | replyHook (m : ReplyMode)
  | monitorHook
  deriving DecidableEq

/-- Command record (lib/command.js): name, argument list, completion sink
(modelled by whether a callback is attached; internal_send_command installs a
promise-backed callback when none is given), pre-write hook, buffer flag. -/
structure Cmd where
  command : String
  args : List String
  hasCallback : Bool
  call_on_write : WriteHook := WriteHook.noHook
  buffer_args : Bool := false
  deriving DecidableEq

/-- Controller state vector of RedisClient (src/index.js constructor). -/
structure ClientState where
  connected : Bool
  ready : Bool
  closing : Bool
  monitoring : Bool
  emitted_end : Bool
  retry_timer : Bool
  pipeline : Bool
  debug_mode : Bool
  pub_sub_mode : Nat
  sub_commands_left : Int
  command_queue : List Cmd
  offline_queue : List Cmd
  subscription_set : List (String × String)
  reply : ReplyMode
  attempts : Int
  max_attempts : Int
  retry_delay : Int
  retry_totaltime : Int
  connect_timeout : Int
  retry_max_delay : Option Int
  retry_strategy : Option (Int → Int → Int → Option Int)
  retry_unfulfilled_commands : Bool
  times_connected : Int
  should_buffer : Bool
  return_buffers : Bool
  message_buffers : Bool

/-- Structured replies delivered by the parser collaborator.
undef models the JS `undefined` produced by reading past an array's end;
obj models the JS object built by reply_to_object. -/
inductive RValue where
  | nullv
  | undef
  | str (s : String)
  | int (i : Int)
  | arr (l : List RValue)
  | obj (m : List (String × RValue))

/-- Observable effects of dispatching one reply. -/
inductive REvent where
  | emitType (ty channel : String) (count : Int)
  | callback (channel : Option String)
  | normalCallback (value : RValue)
  | message (channel payload : String)
  | messageBuffer (channel payload : String)
  | pmessage (pat channel payload : String)
  | pmessageBuffer (pat channel payload : String)
  | monitorEmit

structure ReplyResult where
  state : ClientState
  events : List REvent

/-- SUBSCRIBE_COMMANDS lookup table (src/index.js lines 18-23). -/
def SUBSCRIBE_COMMANDS (c : String) : Bool :=
  c == "subscribe" || c == "unsubscribe" || c == "psubscribe" || c == "punsubscribe"

/-- JS object property insert (overwrite if the key is present). -/
def setInsert (set : List (String × String)) (k v : String) : List (String × String) :=
  if set.any (fun p => p.1 == k) then set.map (fun p => if p.1 == k then (k, v) else p)
  else set ++ [(k, v)]

/-- JS `delete obj[k]`. -/
def setDelete (set : List (String × String)) (k : String) : List (String × String) :=
  set.filter (fun p => p.1 != k)

/-- JS unary plus on a parser value (`+reply[2]`); counts are RESP integers
or, under stringNumbers, their decimal strings. -/
def toNumber : RValue → Int
  | RValue.int i => i
  | RValue.str s => (s.toInt?).getD 0
  | _ => 0

/-- JS `.toString()` on a parser value where the source expects a
string/buffer (or a number); none models the TypeError on null/undefined. -/
def rvToString : RValue → Option String
  | RValue.str s => some s
  | RValue.int i => some (toString i)
  | _ => none

/-- Channel extraction in subscribe_unsubscribe (src/index.js line 1088):
`(buffer || reply[1] === null) ? reply[1] : reply[1].toString()`. With
buffers modelled as strings both branches give the same Option String. -/
def channelOf : RValue → Option String
  | RValue.nullv => none
  | RValue.str s => some s
  | RValue.int i => some (toString i)
  | _ => none

/-- subscribe_unsubscribe (src/index.js lines 1083-1141), acting on the head
of the in-flight queue; none models the TypeError the source would throw on
an empty queue. -/
def subscribe_unsubscribe (s : ClientState) (ty : String) (channel : Option String)
    (count : Int) : Option ReplyResult :=
  match s.command_queue with
  | [] => none
  | command_obj :: rest =>
    let emitAndSet : List REvent × List (String × String) :=
      match channel with
      | some ch =>
        if ty == "subscribe" || ty == "psubscribe" then
          ([REvent.emitType ty ch count], setInsert s.subscription_set (ty ++ "_" ++ ch) ch)
        else
          let t := if ty == "unsubscribe" then "subscribe" else "psubscribe"
          ([REvent.emitType ty ch count], setDelete s.subscription_set (t ++ "_" ++ ch))
      | none => ([], s.subscription_set)
    let ev := emitAndSet.1
    let set1 := emitAndSet.2
    if command_obj.args.length = 1 ∨ s.sub_commands_left = 1 ∨
        (command_obj.args.length = 0 ∧ (count = 0 ∨ channel = none)) then
      let mode : Nat :=
        if count = 0 then
          match rest.findIdx? (fun c => SUBSCRIBE_COMMANDS c.command) with
          | some j => j + 1
          | none => 0
        else s.pub_sub_mode
      let ev1 := if command_obj.hasCallback then ev ++ [REvent.callback channel] else ev
      some ⟨{ s with
                subscription_set := set1
                command_queue := rest
                pub_sub_mode := mode
                sub_commands_left := 0 }, ev1⟩
    else
      let scl : Int :=
        if s.sub_commands_left ≠ 0 then s.sub_commands_left - 1
        else if command_obj.args.length ≠ 0 then (command_obj.args.length : Int) - 1
        else count
      some ⟨{ s with subscription_set := set1, sub_commands_left := scl }, ev⟩

/-- return_pub_sub (src/index.js lines 1143-1170). -/
def return_pub_sub (s : ClientState) (l : List RValue) : Option ReplyResult :=
  match rvToString (l.headD RValue.nullv) with
  | none => none
  | some ty =>
    if ty == "message" then
      match rvToString (l.getD 1 RValue.nullv), rvToString (l.getD 2 RValue.nullv) with
      | some ch, some pl =>
        if !s.return_buffers || s.message_buffers then
          some ⟨s, [REvent.message ch pl, REvent.messageBuffer ch pl]⟩
        else
          some ⟨s, [REvent.message ch pl]⟩
      | _, _ => none
    else if ty == "pmessage" then
      match rvToString (l.getD 1 RValue.nullv), rvToString (l.getD 2 RValue.nullv),
            rvToString (l.getD 3 RValue.nullv) with
      | some pat, some ch, some pl =>
        if !s.return_buffers || s.message_buffers then
          some ⟨s, [REvent.pmessage pat ch pl, REvent.pmessageBuffer pat ch pl]⟩
        else
          some ⟨s, [REvent.pmessage pat ch pl]⟩
      | _, _, _ => none
    else
      subscribe_unsubscribe s ty (channelOf (l.getD 1 RValue.nullv))
        (toNumber (l.getD 2 RValue.nullv))

/-- JS property key via `.toString('binary')` in reply_to_object; none models
the TypeError on null/undefined (hgetall replies only carry bulk strings). -/
def keyString : RValue → Option String
  | RValue.str s => some s
  | RValue.int i => some (toString i)
  | _ => none

/-- The `for (let i = 0; i < reply.length; i += 2)` loop of reply_to_object
(src/unnamed/part_001 lines 11-16); an odd tail assigns `undefined`. -/
def buildPairs : List RValue → List (String × RValue) → Option (List (String × RValue))
  | [], m => some m
  | [k], m => (keyString k).map (fun ks => objInsert m ks RValue.undef)
  | k :: v :: restkv, m =>
    match keyString k with
    | some ks => buildPairs restkv (objInsert m ks v)
    | none => none
where
  objInsert (m : List (String × RValue)) (k : String) (v : RValue) : List (String × RValue) :=
    if m.any (fun p => p.1 == k) then m.map (fun p => if p.1 == k then (k, v) else p)
    else m ++ [(k, v)]

/-- reply_to_object (src/unnamed/part_001 lines 5-18): empty or non-array
replies give null, otherwise the flat array is folded into an object. -/
def reply_to_object : RValue → Option RValue
  | RValue.arr [] => some RValue.nullv
  | RValue.arr l => (buildPairs l []).map RValue.obj
  | _ => some RValue.nullv

/-- Static RedisClient.handle_reply (src/index.js lines 329-334), the
default (non-detect_buffers) reply post-processor. -/
def handle_reply (reply : RValue) (command : String) : Option RValue :=
  if command == "hgetall" then reply_to_object reply else some reply

/-- normal_reply (src/index.js lines 1071-1081): shift the head in-flight
command and complete it; exec replies bypass handle_reply. -/
def normal_reply (s : ClientState) (reply : RValue) : Option ReplyResult :=
  match s.command_queue with
  | [] => none
  | command_obj :: rest =>
    let s1 := { s with command_queue := rest }
    if command_obj.hasCallback then
      if command_obj.command ≠ "exec" then
        (handle_reply reply command_obj.command).map
          (fun r => ⟨s1, [REvent.normalCallback r]⟩)
      else
        some ⟨s1, [REvent.normalCallback reply]⟩
    else
      some ⟨s1, []⟩

def isArray : RValue → Bool
  | RValue.arr _ => true
  | _ => false

/-- The monitor-mode claim in return_reply (src/index.js lines 717-731):
a string reply matching the monitor regex; the regex engine is the external
collaborator `mon`. -/
def monitorClaims (mon : String → Bool) : RValue → Bool
  | RValue.str s => mon s
  | _ => false

/-- return_reply (src/index.js lines 716-744). -/
def return_reply (mon : String → Bool) (s : ClientState) (reply : RValue) :
    Option ReplyResult :=
  if s.monitoring && monitorClaims mon reply then
    some ⟨s, [REvent.monitorEmit]⟩
  else if s.pub_sub_mode = 0 then
    normal_reply s reply
  else if s.pub_sub_mode ≠ 1 then
    normal_reply { s with pub_sub_mode := s.pub_sub_mode - 1 } reply
  else
    match reply with
    | RValue.arr l => if l.length ≤ 2 then normal_reply s reply else return_pub_sub s l
    | r => normal_reply s r

/-- Effect of a command's call_on_write hook (lib/individualCommands.js:
subscribe/unsubscribe/psubscribe/punsubscribe set
`pub_sub_mode = pub_sub_mode || command_queue.length + 1`; CLIENT REPLY sets
`reply`; monitor sets `monitoring`). -/
def runHook : WriteHook → ClientState → ClientState
  | WriteHook.noHook, s => s
  | WriteHook.subscribeHook, s =>
    { s with pub_sub_mode :=
        if s.pub_sub_mode = 0 then s.command_queue.length + 1 else s.pub_sub_mode }
  | WriteHook.replyHook m, s => { s with reply := m }
  | WriteHook.monitorHook, s => { s with monitoring := true }

structure SendTail where
  state : ClientState
  enqueued : Bool
  /-- reply_in_order fired the sink with (null, undefined) at the tail of the
  in-flight queue (src/index.js line 923 / lib/utils.js reply_in_order). -/
  completedInOrder : Bool

/-- The post-write tail of internal_send_command (src/index.js lines
910-930): run call_on_write, then either enqueue in the in-flight queue
(reply mode ON) or complete the sink unreplied and advance the reply mode. -/
def after_write (s : ClientState) (command_obj : Cmd) : SendTail :=
  let s1 := runHook command_obj.call_on_write s
  if s1.reply = ReplyMode.ON then
    ⟨{ s1 with command_queue := s1.command_queue ++ [command_obj] }, true, false⟩
  else
    let fired := command_obj.hasCallback
    let s2 :=
      if s1.reply = ReplyMode.SKIP then { s1 with reply := ReplyMode.SKIP_ONE_MORE }
      else if s1.reply = ReplyMode.SKIP_ONE_MORE then { s1 with reply := ReplyMode.ON }
      else s1
    ⟨s2, false, fired⟩

/-- The retry-delay cap block of connection_gone (src/index.js lines
669-674): an if / else-if, not two successive mins. -/
def apply_retry_caps (retry_max_delay : Option Int) (connect_timeout retry_totaltime
    retry_delay : Int) : Int :=
  match retry_max_delay with
  | some m =>
    if m < retry_delay then m
    else if connect_timeout < retry_totaltime + retry_delay then
      connect_timeout - retry_totaltime
    else retry_delay
  | none =>
    if connect_timeout < retry_totaltime + retry_delay then
      connect_timeout - retry_totaltime
    else retry_delay

/-- Outcome record of one connection_gone call. -/
structure GoneResult where
  state : ClientState
  /-- (error code, command) pairs delivered by flush_and_error, in order. -/
  flushed : List (String × Cmd)
  /-- codes of error events emitted on the client. -/
  errorEvents : List String
  endedClient : Bool
  scheduledRetry : Option Int
  emittedEnd : Bool

/-- flush_and_error over both queues (src/index.js lines 358-412), in-flight
queue first. -/
def flushBoth (code : String) (s : ClientState) : ClientState × List (String × Cmd) :=
  ({ s with command_queue := [], offline_queue := [] },
   (s.command_queue ++ s.offline_queue).map (fun c => (code, c)))

/-- flush_and_error aggregates errors of sink-less commands and emits them
only in debug mode (src/index.js lines 400-411). -/
def aggregateEmits (code : String) (debug_mode : Bool) (cmds : List Cmd) : List String :=
  if debug_mode && cmds.any (fun c => !c.hasCallback) then [code] else []

/-- The budget check, unfulfilled-command handling, caps and timer
scheduling of connection_gone (src/index.js lines 631-679). -/
def connection_gone_tail (s : ClientState) (emitEnd : Bool) : GoneResult :=
  if (s.max_attempts ≠ 0 ∧ s.max_attempts ≤ s.attempts) ∨
      s.connect_timeout ≤ s.retry_totaltime then
    let fl := flushBoth "CONNECTION_BROKEN" s
    ⟨fl.1, fl.2,
      aggregateEmits "CONNECTION_BROKEN" s.debug_mode (s.command_queue ++ s.offline_queue)
        ++ ["CONNECTION_BROKEN"],
      true, none, emitEnd⟩
  else
    let step :
        ClientState × List (String × Cmd) × List String :=
      if s.retry_unfulfilled_commands then
        ({ s with offline_queue := s.command_queue ++ s.offline_queue, command_queue := [] },
         [], [])
      else if s.command_queue ≠ [] then
        ({ s with command_queue := [] },
         s.command_queue.map (fun c => ("UNCERTAIN_STATE", c)),
         aggregateEmits "UNCERTAIN_STATE" s.debug_mode s.command_queue)
      else (s, [], [])
    let s1 := step.1
    let d := apply_retry_caps s1.retry_max_delay s1.connect_timeout s1.retry_totaltime
      s1.retry_delay
    ⟨{ s1 with retry_delay := d, retry_timer := true }, step.2.1, step.2.2,
      false, some d, emitEnd⟩

/-- connection_gone (src/index.js lines 568-679). -/
def connection_gone (s : ClientState) : GoneResult :=
  if s.retry_timer then ⟨s, [], [], false, none, false⟩
  else
    let s0 := { s with
                  connected := false
                  ready := false
                  pipeline := false
                  pub_sub_mode := 0 }
    let emitEnd := !s0.emitted_end
    let s1 := { s0 with emitted_end := true }
    if s1.closing then
      let fl := flushBoth "NR_CLOSED" s1
      ⟨fl.1, fl.2,
        aggregateEmits "NR_CLOSED" s1.debug_mode (s1.command_queue ++ s1.offline_queue),
        false, none, emitEnd⟩
    else
      match s1.retry_strategy with
      | some strat =>
        match strat s1.attempts s1.retry_totaltime s1.times_connected with
        | some d => connection_gone_tail { s1 with retry_delay := d } emitEnd
        | none =>
          let fl := flushBoth "NR_CLOSED" s1
          ⟨fl.1, fl.2,
            aggregateEmits "NR_CLOSED" s1.debug_mode (s1.command_queue ++ s1.offline_queue),
            true, none, emitEnd⟩
      | none => connection_gone_tail s1 emitEnd

/-- JS error value carrying an optional code (lib/customErrors.js). -/
structure JsError where
  code : Option String
  message : String
  deriving DecidableEq

structure QuitResult where
  sinkErr : Option JsError
  sinkRes : Option String
  destroyed : Bool
  deriving DecidableEq

/-- quit_callback (src/lib/individualCommands.js lines 88-105): swallow an
NR_CLOSED failure into (null, "OK"), then destroy the stream if writable. -/
def quit_callback (err : Option JsError) (res : Option String) (writable : Bool) :
    QuitResult :=
  match err with
  | some e =>
    if e.code = some ("NR_CLOSED") then ⟨none, some ("OK"), writable⟩
    else ⟨some e, res, writable⟩
  | none => ⟨none, res, writable⟩

/-- UTF-16 code units contributed by one unicode scalar value (JS
String.prototype.length counts code units). -/
def utf16Units (cp : Nat) : Nat :=
  if cp < 65536 then 1 else 2

/-- UTF-8 encoding of one unicode scalar value (Buffer byte layout). -/
def utf8EncodeChar (cp : Nat) : List Nat :=
  if cp < 128 then [cp]
  else if cp < 2048 then [192 + cp / 64, 128 + cp % 64]
  else if cp < 65536 then [224 + cp / 4096, 128 + cp / 64 % 64, 128 + cp % 64]
  else [240 + cp / 262144, 128 + cp / 4096 % 64, 128 + cp / 64 % 64, 128 + cp % 64]

def utf8Encode (cps : List Nat) : List Nat :=
  cps.flatMap utf8EncodeChar

/-- JS `str.length` of a string given by its unicode scalar values. -/
def jsLength (cps : List Nat) : Nat :=
  (cps.map utf16Units).sum

/-- `Buffer.byteLength(str)`: UTF-8 byte count. -/
def byteLength (cps : List Nat) : Nat :=
  (utf8Encode cps).length

/-- Argument values accepted by internal_send_command. A text string is its
list of unicode scalar values; dates/objects carry their `.toString()`
form. -/
inductive JsArg where
  | jstr (cps : List Nat)
  | jbuf (bytes : List Nat)
  | jdate (s : String)
  | jnull
  | jundef
  | jnum (n : Int)
  | jobj (s : String)
  deriving DecidableEq

inductive NormArg where
  | nstr (cps : List Nat)
  | nbuf (bytes : List Nat)
  deriving DecidableEq

def strCps (s : String) : List Nat :=
  s.data.map Char.toNat

/-- The argument-normalization loop body of internal_send_command
(src/index.js lines 795-861). Returns (normalized argument, big_data
contribution, buffer_args contribution). Only the text-string case is
subject to the 30000 promotion check, and the check uses the JS string
length (`args[i].length`, UTF-16 code units). -/
def normalize_arg : JsArg → NormArg × Bool × Bool
  | JsArg.jstr cps =>
    if 30000 < jsLength cps then (NormArg.nbuf (utf8Encode cps), true, false)
    else (NormArg.nstr cps, false, false)
  | JsArg.jdate s => (NormArg.nstr (strCps s), false, false)
  | JsArg.jnull => (NormArg.nstr (strCps ("null")), false, false)
  | JsArg.jbuf bytes => (NormArg.nbuf bytes, true, true)
  | JsArg.jobj s => (NormArg.nstr (strCps s), false, false)
  | JsArg.jundef => (NormArg.nstr (strCps ("undefined")), false, false)
  | JsArg.jnum n => (NormArg.nstr (strCps (toString n)), false, false)

/-- The whole normalization loop: normalized copies plus the accumulated
big_data and buffer_args flags. -/
def normalize_args (args : List JsArg) : List NormArg × Bool × Bool :=
  args.foldr
    (fun a acc =>
      let r := normalize_arg a
      (r.1 :: acc.1, r.2.1 || acc.2.1, r.2.2 || acc.2.2))
    ([], false, false)

/-- Flat even-length hgetall wire reply for a list of (field, value) pairs. -/
def hgetallFlat (ps : List (String × RValue)) : List RValue :=
  ps.flatMap (fun p => [RValue.str p.1, p.2])

/-- A freshly connected, ready client with default options (constructor
defaults of src/index.js: retry_delay 200, connect_timeout 3600000,
max_attempts 0, attempts 1). -/
def baseState : ClientState where
  connected := true
  ready := true
  closing := false
  monitoring := false
  emitted_end := false
  retry_timer := false
  pipeline := false
  debug_mode := false
  pub_sub_mode := 0
  sub_commands_left := 0
  command_queue := []
  offline_queue := []
  subscription_set := []
  reply := ReplyMode.ON
  attempts := 1
  max_attempts := 0
  retry_delay := 200
  retry_totaltime := 0
  connect_timeout := 3600000
  retry_max_delay := none
  retry_strategy := none
  retry_unfulfilled_commands := false
  times_connected := 1
  should_buffer := false
  return_buffers := false
  message_buffers := false

/-- A SUBSCRIBE a command as built by RedisClient.prototype.subscribe. -/
def c1_subCmd : Cmd where
  command := "subscribe"
  args := ["a"]
  hasCallback := false
  call_on_write := WriteHook.subscribeHook

/-- State after writing SUBSCRIBE a on a fresh ready client. -/
def c1_s1 : ClientState :=
  (after_write baseState c1_subCmd).state

/-- The server acknowledgement frame for SUBSCRIBE a. -/
def c1_ack : RValue :=
  RValue.arr [RValue.str ("subscribe"), RValue.str ("a"), RValue.int 1]

/-- State after the subscribe acknowledgement was dispatched and the
connection then dropped (connection_gone). -/
def c1_final : ClientState :=
  match return_reply (fun _ => false) c1_s1 c1_ack with
  | some r => (connection_gone r.state).state
  | none => c1_s1

/-- An UNSUBSCRIBE with no arguments as built by
RedisClient.prototype.unsubscribe. -/
def c1_unsubCmd : Cmd where
  command := "unsubscribe"
  args := []
  hasCallback := true
  call_on_write := WriteHook.subscribeHook

/-- A client in pub/sub mode whose subscription set is stale (e.g. restored
state after a reconnect with disable_resubscribing) with one in-flight
UNSUBSCRIBE. -/
def c1_staleState : ClientState :=
  { baseState with
      pub_sub_mode := 1
      command_queue := [c1_unsubCmd]
      subscription_set := [("subscribe_a", "a")] }

/-- State after the server answers that UNSUBSCRIBE with a null channel and
count 0: reply dispatch deactivates pub/sub mode (src/index.js line 1110)
while the stale subscription set is left in place. -/
def c1_afterAck : ClientState :=
  match return_reply (fun _ => false) c1_staleState
      (RValue.arr [RValue.str ("unsubscribe"), RValue.nullv, RValue.int 0]) with
  | some r => r.state
  | none => c1_staleState

/-- A client one step before exhausting its connect_timeout budget, with a
small retry_max_delay configured and a grown backoff delay. -/
def c2_state : ClientState :=
  { baseState with
      attempts := 5
      retry_delay := 2000
      retry_totaltime := 3599900
      retry_max_delay := some 1000 }

def c3_cmd : Cmd where
  command := "get"
  args := ["x"]
  hasCallback := true

/-- A client that reached max_attempts with one in-flight command. -/
def c3_state : ClientState :=
  { baseState with
      max_attempts := 3
      attempts := 3
      command_queue := [c3_cmd] }

def c4_cmd : Cmd where
  command := "subscribe"
  args := ["a"]
  hasCallback := true

def c4_state : ClientState :=
  { baseState with pub_sub_mode := 1, command_queue := [c4_cmd] }

def c5_cmd : Cmd where
  command := "get"
  args := ["x"]
  hasCallback := true

/-- A client in pub/sub entry countdown (pub_sub_mode 3) with a pending
normal command. -/
def c5_state : ClientState :=
  { baseState with pub_sub_mode := 3, command_queue := [c5_cmd] }

def c6_cmd : Cmd where
  command := "set"
  args := ["a", "1"]
  hasCallback := true

/-- A ready client whose reply mode is OFF (after CLIENT REPLY OFF). -/
def c6_state : ClientState :=
  { baseState with reply := ReplyMode.OFF }

/-- 15001 copies of U+00E9: one UTF-16 code unit but two UTF-8 bytes each,
so 30002 bytes of text whose JS length is only 15001. -/
def c7_cps : List Nat :=
  List.replicate 15001 233

/-- 30001 ASCII characters. -/
def c7w_cps : List Nat :=
  List.replicate 30001 97

def c8_err : JsError where
  code := some ("NR_FATAL")
  message := "Fatal error encountered. Command aborted. It might have been processed."

def c10_cmd : Cmd where
  command := "unsubscribe"
  args := []
  hasCallback := true

def c10_state : ClientState :=
  { baseState with
      pub_sub_mode := 1
      command_queue := [c10_cmd]
      subscription_set := [("subscribe_a", "a")] }

/-- Hooks never touch the queues. -/
theorem runHook_command_queue (h : WriteHook) (s : ClientState) :
    (runHook h s).command_queue = s.command_queue := by
  cases h <;> rfl

/-- connection_gone_tail always leaves an empty in-flight queue, keeps
pub_sub_mode and keeps the subscription set. -/
theorem connection_gone_tail_state (s : ClientState) (e : Bool) :
    (connection_gone_tail s e).state.pub_sub_mode = s.pub_sub_mode ∧
    (connection_gone_tail s e).state.command_queue = [] ∧
    (connection_gone_tail s e).state.subscription_set = s.subscription_set := by
  by_cases h1 : (s.max_attempts ≠ 0 ∧ s.max_attempts ≤ s.attempts) ∨
      s.connect_timeout ≤ s.retry_totaltime
  · simp [connection_gone_tail, flushBoth, h1]
  · by_cases h2 : s.retry_unfulfilled_commands
    · simp [connection_gone_tail, flushBoth, h1, h2]
    · by_cases h3 : s.command_queue = []
      · simp [connection_gone_tail, flushBoth, h1, h2, h3]
      · simp [connection_gone_tail, flushBoth, h1, h2, h3]

/-- Claim C1 (amended): a disconnect event (connection_gone with no retry
pending) always resets pub_sub_mode to 0 and leaves the in-flight queue
empty — so no subscribe-family command is in flight — but it preserves the
subscription set, which may be non-empty. The subscription-set clause of
the claimed iff is not an invariant: pub_sub_mode == 0 does not imply the
subscription set is empty, neither after a connection event nor after
reply dispatch (see the counterexample's count-0 unsubscribe case). -/
theorem pubsub_mode_reset_on_connection_gone (s : ClientState)
    (h : s.retry_timer = false) :
    (connection_gone s).state.pub_sub_mode = 0 ∧
    (connection_gone s).state.command_queue = [] ∧
    (connection_gone s).state.subscription_set = s.subscription_set := by
  unfold connection_gone
  rw [h]
  simp only [Bool.false_eq_true, if_false]
  by_cases hc : s.closing
  · simp [flushBoth, hc]
  · rcases hs : s.retry_strategy with _ | f
    · simp only [hc, if_false, hs]
      exact connection_gone_tail_state _ _
    · simp only [hc, if_false, hs]
      rcases hf : f s.attempts s.retry_totaltime s.times_connected with _ | d
      · simp [flushBoth]
      · exact connection_gone_tail_state _ _

/-- Witness for the amended claim C1 at a concrete state. -/
theorem pubsub_mode_reset_on_connection_gone_witness :
    baseState.retry_timer = false ∧
    ((connection_gone baseState).state.pub_sub_mode = 0 ∧
     (connection_gone baseState).state.command_queue = [] ∧
     (connection_gone baseState).state.subscription_set = baseState.subscription_set) :=
  ⟨rfl, pubsub_mode_reset_on_connection_gone baseState rfl⟩

/-- Counterexample to claim C1 as stated, failing after two different kinds
of step. Connection event: subscribe to channel a on a fresh ready client,
dispatch the server acknowledgement, then lose the connection; pub_sub_mode
is reset to 0 while the subscription set still holds the channel. Reply
dispatch: on a client whose subscription set is stale, a count-0
unsubscribe acknowledgement with a null channel deactivates pub/sub mode
while leaving the set non-empty. In both final states the claimed iff
fails. -/
theorem pubsub_iff_invariant_fails :
    (c1_final.pub_sub_mode = 0 ∧
     c1_final.subscription_set ≠ [] ∧
     c1_final.command_queue.all (fun c => !SUBSCRIBE_COMMANDS c.command) = true ∧
     ¬ (c1_final.pub_sub_mode = 0 ↔
         (c1_final.subscription_set = [] ∧
          c1_final.command_queue.all (fun c => !SUBSCRIBE_COMMANDS c.command) = true))) ∧
    (c1_afterAck.pub_sub_mode = 0 ∧
     c1_afterAck.subscription_set ≠ [] ∧
     c1_afterAck.command_queue.all (fun c => !SUBSCRIBE_COMMANDS c.command) = true ∧
     ¬ (c1_afterAck.pub_sub_mode = 0 ↔
         (c1_afterAck.subscription_set = [] ∧
          c1_afterAck.command_queue.all (fun c => !SUBSCRIBE_COMMANDS c.command) = true))) := by
  decide

/-- Claim C2 (amended): the two caps are an if / else-if, not two successive
mins: the scheduled delay never exceeds retry_max_delay when it is
configured, and never exceeds connect_timeout - retry_totaltime when it is
not; but when the retry_max_delay cap applies the connect-timeout cap is
skipped, so the scheduled delay can exceed connect_timeout -
retry_totaltime. -/
theorem retry_caps_else_if_bounds (m ct tt d : Int) :
    apply_retry_caps (some m) ct tt d ≤ m ∧
    apply_retry_caps none ct tt d ≤ ct - tt ∧
    (m < d → apply_retry_caps (some m) ct tt d = m) := by
  refine ⟨?_, ?_, ?_⟩
  · simp only [apply_retry_caps]
    split_ifs <;> omega
  · simp only [apply_retry_caps]
    split_ifs <;> omega
  · intro h
    simp [apply_retry_caps, h]

/-- Witness for the amended claim C2 at the counterexample's numbers. -/
theorem retry_caps_else_if_bounds_witness :
    apply_retry_caps (some 1000) 3600000 3599900 2000 ≤ 1000 ∧
    apply_retry_caps none 3600000 3599900 2000 ≤ 3600000 - 3599900 ∧
    ((1000 : Int) < 2000 → apply_retry_caps (some 1000) 3600000 3599900 2000 = 1000) :=
  retry_caps_else_if_bounds 1000 3600000 3599900 2000

/-- Counterexample to claim C2 as stated: with retry_max_delay = 1000,
retry_delay = 2000 and only 100 ms of connect_timeout budget left, the
disconnect schedules a 1000 ms retry, exceeding the connect_timeout -
retry_totaltime bound the claim promises is always honoured. -/
theorem retry_cap_exceeds_connect_timeout_budget :
    (connection_gone c2_state).scheduledRetry = some 1000 ∧
    c2_state.connect_timeout - c2_state.retry_totaltime < 1000 := by
  decide

/-- Claim C3: with no retry_strategy, when the attempt budget or the
connect_timeout budget is exhausted at a processed disconnect, both queues
are flushed with code CONNECTION_BROKEN, an error event with code
CONNECTION_BROKEN is emitted, the client is ended, and no retry is
scheduled. -/
theorem connection_broken_on_budget_exhausted (s : ClientState)
    (h1 : s.retry_timer = false) (h2 : s.closing = false)
    (h3 : s.retry_strategy = none)
    (h4 : (0 < s.max_attempts ∧ s.max_attempts ≤ s.attempts) ∨
      s.connect_timeout ≤ s.retry_totaltime) :
    (connection_gone s).flushed =
      (s.command_queue ++ s.offline_queue).map (fun c => ("CONNECTION_BROKEN", c)) ∧
    "CONNECTION_BROKEN" ∈ (connection_gone s).errorEvents ∧
    (connection_gone s).endedClient = true ∧
    (connection_gone s).scheduledRetry = none := by
  have hb : (s.max_attempts ≠ 0 ∧ s.max_attempts ≤ s.attempts) ∨
      s.connect_timeout ≤ s.retry_totaltime := by
    rcases h4 with ⟨hm, ha⟩ | ht
    · exact Or.inl ⟨by omega, ha⟩
    · exact Or.inr ht
  unfold connection_gone
  rw [h1]
  simp only [Bool.false_eq_true, if_false, h2, h3]
  unfold connection_gone_tail
  simp [flushBoth, hb]

/-- Claim C4: a subscribe-family acknowledgement shifts the head in-flight
command and fires its sink with the last channel exactly when the command's
argument list had one channel, or sub_commands_left == 1, or the argument
list was empty and the server reported count == 0 or a null channel; in
every other case the command stays at the head of the in-flight queue. -/
theorem subscribe_ack_completion_condition (s : ClientState) (ty : String)
    (ch : Option String) (cnt : Int) (cmd : Cmd) (rest : List Cmd)
    (hq : s.command_queue = cmd :: rest) (hcb : cmd.hasCallback = true) :
    (subscribe_unsubscribe s ty ch cnt).map (fun r => r.state.command_queue) =
      some (if cmd.args.length = 1 ∨ s.sub_commands_left = 1 ∨
              (cmd.args.length = 0 ∧ (cnt = 0 ∨ ch = none))
            then rest else cmd :: rest) ∧
    ((subscribe_unsubscribe s ty ch cnt).map
        (fun r => r.events.any (fun e =>
          match e with
          | REvent.callback c => c == ch
          | _ => false)) = some true ↔
      (cmd.args.length = 1 ∨ s.sub_commands_left = 1 ∨
        (cmd.args.length = 0 ∧ (cnt = 0 ∨ ch = none)))) := by
  unfold subscribe_unsubscribe
  rw [hq]
  by_cases hc : cmd.args.length = 1 ∨ s.sub_commands_left = 1 ∨
      (cmd.args.length = 0 ∧ (cnt = 0 ∨ ch = none))
  · dsimp only
    simp only [if_pos hc]
    rcases ch with _ | ch0
    · simp [hcb]
      simp at hc
      tauto
    · by_cases hty : (ty == "subscribe" || ty == "psubscribe") = true
      · simp [hcb, hty]
        simp at hc
        tauto
      · simp [hcb, hty]
        simp at hc
        tauto
  · dsimp only
    simp only [if_neg hc]
    rcases ch with _ | ch0
    · simp [hq]
      simp at hc
      tauto
    · by_cases hty : (ty == "subscribe" || ty == "psubscribe") = true
      · simp [hq, hty]
        simp at hc
        tauto
      · simp [hq, hty]
        simp at hc
        tauto

/-- Witness for claim C4: a single-channel SUBSCRIBE acknowledgement
completes the head command. -/
theorem subscribe_ack_completion_condition_witness :
    c4_state.command_queue = c4_cmd :: [] ∧ c4_cmd.hasCallback = true ∧
    ((subscribe_unsubscribe c4_state ("subscribe") (some ("a")) 1).map
        (fun r => r.state.command_queue) =
      some (if c4_cmd.args.length = 1 ∨ c4_state.sub_commands_left = 1 ∨
              (c4_cmd.args.length = 0 ∧ ((1 : Int) = 0 ∨ (some ("a") : Option String) = none))
            then [] else c4_cmd :: []) ∧
     ((subscribe_unsubscribe c4_state ("subscribe") (some ("a")) 1).map
        (fun r => r.events.any (fun e =>
          match e with
          | REvent.callback c => c == (some ("a") : Option String)
          | _ => false)) = some true ↔
      (c4_cmd.args.length = 1 ∨ c4_state.sub_commands_left = 1 ∨
        (c4_cmd.args.length = 0 ∧ ((1 : Int) = 0 ∨ (some ("a") : Option String) = none))))) :=
  ⟨rfl, rfl,
    subscribe_ack_completion_condition c4_state ("subscribe") (some ("a")) 1 c4_cmd []
      rfl rfl⟩

/-- Claim C10: a subscribe-family acknowledgement with a null channel emits
no subscribe/unsubscribe/psubscribe/punsubscribe event and leaves the
subscription set unchanged, while the acknowledgement is still processed
(the function returns a result, running the mode bookkeeping and the
completion check). -/
theorem null_channel_ack_no_effect (s : ClientState) (ty : String) (cnt : Int)
    (cmd : Cmd) (rest : List Cmd) (hq : s.command_queue = cmd :: rest) :
    (subscribe_unsubscribe s ty none cnt).map (fun r => r.state.subscription_set) =
      some s.subscription_set ∧
    (subscribe_unsubscribe s ty none cnt).map
        (fun r => r.events.any (fun e =>
          match e with
          | REvent.emitType _ _ _ => true
          | _ => false)) = some false := by
  unfold subscribe_unsubscribe
  rw [hq]
  dsimp only
  by_cases hcb : cmd.hasCallback = true <;>
    refine ⟨?_, ?_⟩ <;> split <;> simp [hcb]

/-- Witness for claim C10: an UNSUBSCRIBE acknowledgement with a null
channel on a subscribed client. -/
theorem null_channel_ack_no_effect_witness :
    c10_state.command_queue = c10_cmd :: [] ∧
    ((subscribe_unsubscribe c10_state ("unsubscribe") none 0).map
        (fun r => r.state.subscription_set) = some c10_state.subscription_set ∧
     (subscribe_unsubscribe c10_state ("unsubscribe") none 0).map
        (fun r => r.events.any (fun e =>
          match e with
          | REvent.emitType _ _ _ => true
          | _ => false)) = some false) :=
  ⟨rfl, null_channel_ack_no_effect c10_state ("unsubscribe") 0 c10_cmd [] rfl⟩

/-- A message or pmessage frame dispatched by return_pub_sub only emits
events; the client state (in particular the in-flight queue) is unchanged. -/
theorem return_pub_sub_msg_state (s : ClientState) (l : List RValue) (t : String)
    (ht : rvToString (l.headD RValue.nullv) = some t)
    (hmsg : t = "message" ∨ t = "pmessage")
    (r : ReplyResult) (h : return_pub_sub s l = some r) : r.state = s := by
  unfold return_pub_sub at h
  rw [ht] at h
  simp only [] at h
  rcases hmsg with rfl | rfl
  · rw [if_pos (show (("message" : String) == "message") = true from by decide)] at h
    rcases hc1 : rvToString (l.getD 1 RValue.nullv) with _ | cs
    · rw [hc1] at h
      simp at h
    · rw [hc1] at h
      rcases hc2 : rvToString (l.getD 2 RValue.nullv) with _ | ps
      · rw [hc2] at h
        simp at h
      · rw [hc2] at h
        simp only [] at h
        split at h <;> (injection h with h1; subst h1; rfl)
  · rw [if_neg (show ¬(("pmessage" : String) == "message") = true from by decide),
      if_pos (show (("pmessage" : String) == "pmessage") = true from by decide)] at h
    rcases hc1 : rvToString (l.getD 1 RValue.nullv) with _ | qs
    · rw [hc1] at h
      simp at h
    · rw [hc1] at h
      rcases hc2 : rvToString (l.getD 2 RValue.nullv) with _ | cs
      · rw [hc2] at h
        simp at h
      · rw [hc2] at h
        rcases hc3 : rvToString (l.getD 3 RValue.nullv) with _ | ps
        · rw [hc3] at h
          simp at h
        · rw [hc3] at h
          simp only [] at h
          split at h <;> (injection h with h1; subst h1; rfl)

/-- Claim C5: while pub_sub_mode is non-zero and monitoring does not claim
the reply, a countdown mode (> 1) decrements and delivers to the normal
dispatcher; in mode 1 a non-array or short (length ≤ 2) reply is delivered
normally; any longer array is dispatched as a pub/sub frame, and
message/pmessage frames do not shift the in-flight queue, whereas normal
delivery shifts the head command. -/
theorem pub_sub_reply_routing (mon : String → Bool) (s : ClientState)
    (reply : RValue) (hm : s.monitoring = false) (h0 : s.pub_sub_mode ≠ 0) :
    (s.pub_sub_mode ≠ 1 →
      return_reply mon s reply =
        normal_reply { s with pub_sub_mode := s.pub_sub_mode - 1 } reply) ∧
    (s.pub_sub_mode = 1 → isArray reply = false →
      return_reply mon s reply = normal_reply s reply) ∧
    (∀ l, s.pub_sub_mode = 1 → reply = RValue.arr l → l.length ≤ 2 →
      return_reply mon s reply = normal_reply s reply) ∧
    (∀ l, s.pub_sub_mode = 1 → reply = RValue.arr l → 2 < l.length →
      return_reply mon s reply = return_pub_sub s l) ∧
    (∀ ch pl l2 r,
      return_pub_sub s (RValue.str ("message") :: ch :: pl :: l2) = some r →
        r.state.command_queue = s.command_queue) ∧
    (∀ pat ch pl l2 r,
      return_pub_sub s (RValue.str ("pmessage") :: pat :: ch :: pl :: l2) = some r →
        r.state.command_queue = s.command_queue) ∧
    (∀ s2 reply2 cmd rest r, s2.command_queue = cmd :: rest →
      normal_reply s2 reply2 = some r → r.state.command_queue = rest) := by
  refine ⟨?_, ?_, ?_, ?_, ?_, ?_, ?_⟩
  · intro h1
    simp [return_reply, hm, h0, h1]
  · intro h1 ha
    rcases reply with _ | _ | s0 | i | l | o <;>
      simp_all [return_reply, isArray]
  · intro l h1 hr hlen
    subst hr
    simp [return_reply, hm, h0, h1, hlen]
  · intro l h1 hr hlen
    subst hr
    simp [return_reply, hm, h0, h1, Nat.not_le.mpr hlen]
  · intro ch pl l2 r h
    rw [return_pub_sub_msg_state s (RValue.str ("message") :: ch :: pl :: l2)
      ("message") rfl (Or.inl rfl) r h]
  · intro pat ch pl l2 r h
    rw [return_pub_sub_msg_state s (RValue.str ("pmessage") :: pat :: ch :: pl :: l2)
      ("pmessage") rfl (Or.inr rfl) r h]
  · intro s2 reply2 cmd2 rest2 r hq2 h
    unfold normal_reply at h
    rw [hq2] at h
    simp only [] at h
    by_cases hcb2 : cmd2.hasCallback = true
    · rw [if_pos hcb2] at h
      by_cases hex : cmd2.command = "exec"
      · rw [if_neg (not_not_intro hex)] at h
        rw [← Option.some_inj.mp h]
      · rw [if_pos hex] at h
        rw [Option.map_eq_some'] at h
        obtain ⟨v, hv, hr⟩ := h
        rw [← hr]
    · rw [if_neg hcb2] at h
      rw [← Option.some_inj.mp h]

/-- Witness for claim C5: pub/sub countdown state with a pending GET. -/
theorem pub_sub_reply_routing_witness :
    c5_state.monitoring = false ∧ c5_state.pub_sub_mode ≠ 0 ∧
    ((c5_state.pub_sub_mode ≠ 1 →
      return_reply (fun _ => false) c5_state (RValue.str ("PONG")) =
        normal_reply { c5_state with pub_sub_mode := c5_state.pub_sub_mode - 1 }
          (RValue.str ("PONG"))) ∧
     (c5_state.pub_sub_mode = 1 → isArray (RValue.str ("PONG")) = false →
      return_reply (fun _ => false) c5_state (RValue.str ("PONG")) =
        normal_reply c5_state (RValue.str ("PONG"))) ∧
     (∀ l, c5_state.pub_sub_mode = 1 → RValue.str ("PONG") = RValue.arr l →
      l.length ≤ 2 →
      return_reply (fun _ => false) c5_state (RValue.str ("PONG")) =
        normal_reply c5_state (RValue.str ("PONG"))) ∧
     (∀ l, c5_state.pub_sub_mode = 1 → RValue.str ("PONG") = RValue.arr l →
      2 < l.length →
      return_reply (fun _ => false) c5_state (RValue.str ("PONG")) =
        return_pub_sub c5_state l) ∧
     (∀ ch pl l2 r,
      return_pub_sub c5_state (RValue.str ("message") :: ch :: pl :: l2) = some r →
        r.state.command_queue = c5_state.command_queue) ∧
     (∀ pat ch pl l2 r,
      return_pub_sub c5_state (RValue.str ("pmessage") :: pat :: ch :: pl :: l2) =
          some r →
        r.state.command_queue = c5_state.command_queue) ∧
     (∀ s2 reply2 cmd rest r, s2.command_queue = cmd :: rest →
      normal_reply s2 reply2 = some r → r.state.command_queue = rest)) :=
  ⟨rfl, by decide,
    pub_sub_reply_routing (fun _ => false) c5_state (RValue.str ("PONG")) rfl
      (by decide)⟩

/-- Claim C6: a command written while the (post-hook) reply mode is OFF,
SKIP or SKIP_ONE_MORE is not pushed onto the in-flight queue and its sink is
completed in queue-tail order with (null, undefined); writing during SKIP
moves the mode to SKIP_ONE_MORE, writing during SKIP_ONE_MORE returns it to
ON (and OFF stays OFF). -/
theorem client_reply_suppression (s : ClientState) (cmd : Cmd)
    (h : (runHook cmd.call_on_write s).reply ≠ ReplyMode.ON) :
    (after_write s cmd).enqueued = false ∧
    (after_write s cmd).state.command_queue = s.command_queue ∧
    (after_write s cmd).completedInOrder = cmd.hasCallback ∧
    ((runHook cmd.call_on_write s).reply = ReplyMode.OFF →
      (after_write s cmd).state.reply = ReplyMode.OFF) ∧
    ((runHook cmd.call_on_write s).reply = ReplyMode.SKIP →
      (after_write s cmd).state.reply = ReplyMode.SKIP_ONE_MORE) ∧
    ((runHook cmd.call_on_write s).reply = ReplyMode.SKIP_ONE_MORE →
      (after_write s cmd).state.reply = ReplyMode.ON) := by
  unfold after_write
  rw [if_neg h]
  have hq := runHook_command_queue cmd.call_on_write s
  rcases hr : (runHook cmd.call_on_write s).reply with _ | _ | _ | _ <;>
    simp_all

/-- Witness for claim C6: a SET written while reply mode is OFF. -/
theorem client_reply_suppression_witness :
    (runHook c6_cmd.call_on_write c6_state).reply ≠ ReplyMode.ON ∧
    ((after_write c6_state c6_cmd).enqueued = false ∧
     (after_write c6_state c6_cmd).state.command_queue = c6_state.command_queue ∧
     (after_write c6_state c6_cmd).completedInOrder = c6_cmd.hasCallback ∧
     ((runHook c6_cmd.call_on_write c6_state).reply = ReplyMode.OFF →
       (after_write c6_state c6_cmd).state.reply = ReplyMode.OFF) ∧
     ((runHook c6_cmd.call_on_write c6_state).reply = ReplyMode.SKIP →
       (after_write c6_state c6_cmd).state.reply = ReplyMode.SKIP_ONE_MORE) ∧
     ((runHook c6_cmd.call_on_write c6_state).reply = ReplyMode.SKIP_ONE_MORE →
       (after_write c6_state c6_cmd).state.reply = ReplyMode.ON)) :=
  ⟨by decide, client_reply_suppression c6_state c6_cmd (by decide)⟩

/-- jsLength of a constant string. -/
theorem jsLength_replicate (n c : Nat) :
    jsLength (List.replicate n c) = n * utf16Units c := by
  induction n with
  | zero => simp [jsLength]
  | succ k ih =>
    simp only [List.replicate_succ, jsLength, List.map_cons, List.sum_cons] at *
    rw [Nat.succ_mul]
    omega

/-- byteLength of a constant string. -/
theorem byteLength_replicate (n c : Nat) :
    byteLength (List.replicate n c) = n * (utf8EncodeChar c).length := by
  induction n with
  | zero => simp [byteLength, utf8Encode]
  | succ k ih =>
    simp only [List.replicate_succ, byteLength, utf8Encode, List.flatMap_cons,
      List.length_append] at *
    rw [Nat.succ_mul]
    omega

/-- For single-byte (ASCII) text, the UTF-8 byte count equals the JS string
length. -/
theorem byteLength_ascii (cps : List Nat) (h : ∀ c ∈ cps, c < 128) :
    byteLength cps = jsLength cps := by
  induction cps with
  | nil => rfl
  | cons a l ih =>
    have ha : a < 128 := h a (List.mem_cons_self a l)
    have hl := ih (fun c hc => h c (List.mem_cons_of_mem a hc))
    have h1 : (utf8EncodeChar a).length = 1 := by
      unfold utf8EncodeChar
      rw [if_pos ha]
      rfl
    have h2 : utf16Units a = 1 := by
      unfold utf16Units
      rw [if_pos (by omega : a < 65536)]
    simp only [byteLength, utf8Encode, List.flatMap_cons, List.length_append,
      jsLength, List.map_cons, List.sum_cons] at *
    omega

/-- Claim C7 (amended): the 30000 promotion threshold compares the JS string
length (UTF-16 code units), not the UTF-8 byte count. For single-byte
(ASCII) text the two coincide: at most 30000 bytes is sent as text, more
than 30000 bytes is promoted to a binary buffer with big_data set. For
multi-byte text an argument can exceed 30000 bytes yet still be sent as
text. -/
theorem big_data_threshold_ascii (cps : List Nat) (h : ∀ c ∈ cps, c < 128) :
    (byteLength cps ≤ 30000 →
      normalize_arg (JsArg.jstr cps) = (NormArg.nstr cps, false, false)) ∧
    (30000 < byteLength cps →
      normalize_arg (JsArg.jstr cps) = (NormArg.nbuf (utf8Encode cps), true, false)) := by
  constructor
  · intro hb
    rw [byteLength_ascii cps h] at hb
    simp only [normalize_arg]
    rw [if_neg (by omega)]
  · intro hb
    rw [byteLength_ascii cps h] at hb
    simp only [normalize_arg]
    rw [if_pos (by omega)]

/-- Witness for the amended claim C7: 30001 ASCII characters are promoted. -/
theorem big_data_threshold_ascii_witness :
    (∀ c ∈ c7w_cps, c < 128) ∧ 30000 < byteLength c7w_cps ∧
    normalize_arg (JsArg.jstr c7w_cps) =
      (NormArg.nbuf (utf8Encode c7w_cps), true, false) := by
  have hall : ∀ c ∈ c7w_cps, c < 128 := by
    intro c hc
    unfold c7w_cps at hc
    have := List.eq_of_mem_replicate hc
    omega
  have hb : 30000 < byteLength c7w_cps := by
    unfold c7w_cps
    rw [byteLength_replicate, show (utf8EncodeChar 97).length = 1 from rfl]
    omega
  exact ⟨hall, hb, (big_data_threshold_ascii c7w_cps hall).2 hb⟩

/-- Counterexample to claim C7 as stated: 15001 copies of U+00E9 take 30002
UTF-8 bytes — beyond the claimed 30000-byte promotion threshold — yet the
argument is sent as text because its JS length is only 15001. -/
theorem big_data_threshold_counts_utf16_units :
    30000 < byteLength c7_cps ∧
    normalize_arg (JsArg.jstr c7_cps) = (NormArg.nstr c7_cps, false, false) := by
  have hb : byteLength c7_cps = 30002 := by
    unfold c7_cps
    rw [byteLength_replicate, show (utf8EncodeChar 233).length = 2 from rfl]
  have hj : jsLength c7_cps = 15001 := by
    unfold c7_cps
    rw [jsLength_replicate, show utf16Units 233 = 1 from rfl, Nat.mul_one]
  constructor
  · omega
  · simp only [normalize_arg]
    rw [if_neg (by omega)]

/-- Claim C8 (amended): quit's completion sink fires with (null, "OK") when
the QUIT reply is OK or when the failure carries code NR_CLOSED; any other
failure (e.g. NR_FATAL from a parser fatal flush, UNCERTAIN_STATE,
CONNECTION_BROKEN) is passed through to the sink unchanged; afterwards the
transport is destroyed exactly when it is still writable. -/
theorem quit_callback_behavior (e : JsError) (res : Option String) (w : Bool) :
    quit_callback none (some ("OK")) w = ⟨none, some ("OK"), w⟩ ∧
    (e.code = some ("NR_CLOSED") →
      quit_callback (some e) res w = ⟨none, some ("OK"), w⟩) ∧
    (e.code ≠ some ("NR_CLOSED") →
      quit_callback (some e) res w = ⟨some e, res, w⟩) ∧
    (quit_callback (some e) res w).destroyed = w := by
  refine ⟨rfl, ?_, ?_, ?_⟩
  · intro hc
    simp only [quit_callback]
    rw [if_pos hc]
  · intro hc
    simp only [quit_callback]
    rw [if_neg hc]
  · simp only [quit_callback]
    split <;> rfl

/-- Witness for the amended claim C8 at an NR_FATAL failure. -/
theorem quit_callback_behavior_witness :
    c8_err.code ≠ some ("NR_CLOSED") ∧
    (quit_callback none (some ("OK")) true = ⟨none, some ("OK"), true⟩ ∧
     (c8_err.code = some ("NR_CLOSED") →
       quit_callback (some c8_err) none true = ⟨none, some ("OK"), true⟩) ∧
     (c8_err.code ≠ some ("NR_CLOSED") →
       quit_callback (some c8_err) none true = ⟨some c8_err, none, true⟩) ∧
     (quit_callback (some c8_err) none true).destroyed = true) :=
  ⟨by decide, quit_callback_behavior c8_err none true⟩

/-- Counterexample to claim C8 as stated: a QUIT failure whose code is
NR_FATAL (as produced by the parser fatal-error flush of the in-flight
queue) reaches quit's sink as an error, not as (null, "OK"). -/
theorem quit_callback_passes_other_errors :
    (quit_callback (some c8_err) none true).sinkRes ≠ some ("OK") ∧
    (quit_callback (some c8_err) none true).sinkErr = some c8_err := by
  decide

/-- objInsert on a fresh key appends. -/
theorem buildPairs_objInsert_fresh (m : List (String × RValue)) (k : String)
    (v : RValue) (h : ∀ p ∈ m, p.1 ≠ k) :
    buildPairs.objInsert m k v = m ++ [(k, v)] := by
  have hfalse : (m.any (fun p => p.1 == k)) = false := by
    rw [List.any_eq_false]
    intro p hp
    simpa using h p hp
  unfold buildPairs.objInsert
  rw [hfalse]
  simp

/-- The i += 2 loop of reply_to_object builds exactly the pair list when the
keys are fresh and distinct. -/
theorem buildPairs_flat (ps : List (String × RValue)) :
    ∀ acc : List (String × RValue),
      (∀ k ∈ ps.map Prod.fst, k ∉ acc.map Prod.fst) →
      (ps.map Prod.fst).Nodup →
      buildPairs (hgetallFlat ps) acc = some (acc ++ ps) := by
  induction ps with
  | nil =>
    intro acc _ _
    simp [hgetallFlat, buildPairs]
  | cons p ps2 ih =>
    intro acc hfresh hnd
    obtain ⟨k, v⟩ := p
    rw [List.map_cons, List.nodup_cons] at hnd
    obtain ⟨hknotin, hnd2⟩ := hnd
    have hk : ∀ q ∈ acc, q.1 ≠ k := by
      intro q hq heq
      have hmem : q.1 ∈ acc.map Prod.fst := List.mem_map_of_mem Prod.fst hq
      rw [heq] at hmem
      exact hfresh k (by simp) hmem
    have hflat : hgetallFlat ((k, v) :: ps2) = RValue.str k :: v :: hgetallFlat ps2 := by
      simp [hgetallFlat]
    have hstep : buildPairs (RValue.str k :: v :: hgetallFlat ps2) acc =
        buildPairs (hgetallFlat ps2) (buildPairs.objInsert acc k v) := by
      simp [buildPairs, keyString]
    rw [hflat, hstep, buildPairs_objInsert_fresh acc k v hk]
    rw [ih (acc ++ [(k, v)]) ?_ hnd2]
    · simp
    · intro k2 hk2
      simp only [List.map_append, List.mem_append, List.map_cons, List.map_nil,
        List.mem_singleton, not_or]
      constructor
      · exact hfresh k2 (by simp [hk2])
      · intro heq
        rw [heq] at hk2
        exact hknotin hk2

/-- Claim C9: for an hgetall command completed through normal reply
handling, an empty-array (or non-array) server reply yields null rather
than an empty map, and a flat even-length array of distinct fields becomes
the corresponding field-to-value map. -/
theorem hgetall_reply_to_object (ps : List (String × RValue)) (v : RValue)
    (hne : ps ≠ []) (hnd : (ps.map Prod.fst).Nodup) (hv : isArray v = false) :
    handle_reply (RValue.arr []) ("hgetall") = some RValue.nullv ∧
    handle_reply v ("hgetall") = some RValue.nullv ∧
    handle_reply (RValue.arr (hgetallFlat ps)) ("hgetall") = some (RValue.obj ps) := by
  refine ⟨rfl, ?_, ?_⟩
  · rcases v with _ | _ | s0 | i | l | o <;> simp_all [handle_reply, isArray] <;> rfl
  · rcases ps with _ | ⟨⟨k, v0⟩, ps2⟩
    · exact absurd rfl hne
    · unfold handle_reply
      rw [if_pos (by decide : (("hgetall" : String) == "hgetall") = true)]
      have hflat : hgetallFlat ((k, v0) :: ps2) = RValue.str k :: v0 :: hgetallFlat ps2 := by
        simp [hgetallFlat]
      rw [hflat]
      show (buildPairs (RValue.str k :: v0 :: hgetallFlat ps2) []).map RValue.obj =
        some (RValue.obj ((k, v0) :: ps2))
      rw [← hflat, buildPairs_flat ((k, v0) :: ps2) [] (by simp) hnd]
      simp

/-- Witness for claim C9: reply [f, 1] becomes the map assigning 1 to f. -/
theorem hgetall_reply_to_object_witness :
    ([(("f" : String), RValue.str ("1"))] ≠ []) ∧
    (([(("f" : String), RValue.str ("1"))].map Prod.fst).Nodup) ∧
    isArray (RValue.str ("x")) = false ∧
    (handle_reply (RValue.arr []) ("hgetall") = some RValue.nullv ∧
     handle_reply (RValue.str ("x")) ("hgetall") = some RValue.nullv ∧
     handle_reply (RValue.arr (hgetallFlat [(("f" : String), RValue.str ("1"))]))
        ("hgetall") = some (RValue.obj [(("f" : String), RValue.str ("1"))])) :=
  ⟨by simp, by simp, rfl,
    hgetall_reply_to_object [(("f" : String), RValue.str ("1"))] (RValue.str ("x"))
      (by simp) (by simp) rfl⟩

/-- Witness for claim C3 at a concrete exhausted-budget state. -/
theorem connection_broken_on_budget_exhausted_witness :
    c3_state.retry_timer = false ∧ c3_state.closing = false ∧
    c3_state.retry_strategy = none ∧
    (0 < c3_state.max_attempts ∧ c3_state.max_attempts ≤ c3_state.attempts) ∧
    ((connection_gone c3_state).flushed =
      (c3_state.command_queue ++ c3_state.offline_queue).map
        (fun c => ("CONNECTION_BROKEN", c)) ∧
     "CONNECTION_BROKEN" ∈ (connection_gone c3_state).errorEvents ∧
     (connection_gone c3_state).endedClient = true ∧
     (connection_gone c3_state).scheduledRetry = none) :=
  ⟨rfl, rfl, rfl, ⟨by decide, by decide⟩,
    connection_broken_on_budget_exhausted c3_state rfl rfl rfl
      (Or.inl ⟨by decide, by decide⟩)⟩
